import Mathlib

/-
  Verification development for the video-processing service.

  Shallow embedding of the queue-driven processing pipeline:
    app/schemas.py        (ProcessingStatus)
    app/s3_service.py     (S3Service.video_exists, download_video, upload_video)
    app/utils.py          (extract_frames_from_video, cleanup_temp_files)
    app/video_processor.py (VideoProcessor.process_message,
                            process_video_from_s3, _process_video_internal,
                            _send_error_email)
    app/sqs_consumer.py   (SQSConsumer.consume_messages)

  External calls (S3 head/download/upload, the frame extractor, zip creation,
  the notification HTTP POST, json.loads on a queue body) are modelled by an
  environment record fixing each call's outcome for one run; the embedded
  functions return the result value together with the per-run filesystem
  state and an ordered trace of the side-effecting calls that were issued.
-/

deriving instance DecidableEq for Except

namespace VideoProc

/-- ProcessingStatus enum from app/schemas.py. -/
inductive ProcessingStatus where
  | pending
  | processing
  | completed
  | failed
deriving DecidableEq, Repr

/-- The video_metadata dict built in process_video_from_s3. -/
structure VideoMeta where
  s3_key : String
  title : String
  description : String
  bucket : String
  source : String
  original_filename : String
deriving DecidableEq, Repr

/-- The result dict of one pipeline run. Python returns plain dicts whose key
sets differ per exit path; absent keys and None values are both `none`. -/
structure ProcResult where
  video_id : String
  status : ProcessingStatus
  zip_filename : Option String := none
  zip_path : Option String := none
  zip_url : Option String := none
  frame_count : Option Nat := none
  error : Option String := none
  s3_key : Option String := none
  metadata : Option VideoMeta := none
deriving DecidableEq, Repr

/-- One side-effecting external call issued during a run, in issue order. -/
inductive Ev where
  | headObject (bucket key : String)
  | downloadFile (bucket key localPath : String)
  | uploadFile (localPath bucket key : String)
  | extractFrames (videoPath outDir : String)
  | createZip (zipPath : String)
  | removePath (p : String)
  | notifyPost (dest : String)
  | invokePipeline (key : String)
  | deleteMessage (receipt : String)
deriving DecidableEq, Repr

/-- Per-run filesystem footprint: the downloaded video file, the per-run
temp frame directory, and the output zip archive. -/
structure FsState where
  videoFile : Bool := false
  tempDir : Bool := false
  zipFile : Bool := false
deriving DecidableEq, Repr

/-- Outcomes of the external calls for one run: the generated unique id
(uuid4), head_object, download_file, the frame extractor, zip creation and
the notification POST (HTTP status, or an exception message). A `.error`
value means the underlying call raised. Downloads are modelled as atomic:
a failed download leaves no file. -/
structure Env where
  uid : String
  headOutcome : Except String Unit
  downloadOutcome : Except String Unit
  extractOutcome : Except String (List String)
  zipOutcome : Except String Unit
  notifyOutcome : Except String Nat
deriving DecidableEq, Repr

/-- Notification configuration read from the process environment
(NOTIFICATION_SERVICE_URL); `none` covers unset and empty. -/
structure NotifyConfig where
  notification_service_url : Option String := none
deriving DecidableEq, Repr

/-- Result record of one pipeline run together with the run's filesystem
footprint and the ordered trace of external calls. -/
structure RunOutput where
  result : ProcResult
  fs : FsState
  trace : List Ev
deriving DecidableEq, Repr

/-- Python Path(p).name: the component after the last slash. -/
def pathName (p : String) : String :=
  (p.splitOn "/").getLastD p

/-- Python Path(p).stem: the name with its last extension removed; a name
whose only dot is leading keeps it. -/
def pathStem (p : String) : String :=
  let n := pathName p
  let parts := n.splitOn "."
  if parts.length ≤ 1 then n
  else if parts.headD "" = "" ∧ parts.length = 2 then n
  else String.intercalate "." parts.dropLast

/-- video_id extraction in _process_video_internal:
Path(video_path).stem.split(underscore)[0]. -/
def videoIdOf (video_path : String) : String :=
  ((pathStem video_path).splitOn "_").headD (pathStem video_path)

/-- One character of re.sub applied to the title: characters outside the
word class, dot and hyphen become underscores (ASCII reading of the class). -/
def sanitizeChar (c : Char) : Char :=
  if c.isAlphanum ∨ c = '_' ∨ c = '.' ∨ c = '-' then c else '_'

/-- title_safe in _process_video_internal. -/
def sanitizeTitle (t : String) : String :=
  t.map sanitizeChar

/-- S3Service.video_exists: head_object inside a bare try; any exception at
all (absent key, network failure, permission error, timeout) yields False. -/
def video_exists (headOutcome : Except String Unit) : Bool :=
  match headOutcome with
  | .ok _ => true
  | .error _ => false

/-- VideoProcessor._send_error_email: returns early when the email or the
notification URL is missing; otherwise one HTTP POST is issued whose
outcome — any status code or any raised exception — is only logged, never
returned. -/
def send_error_email (cfg : NotifyConfig) (outcome : Except String Nat)
    (email : String) : List Ev :=
  if email = "" ∨ cfg.notification_service_url.isNone then []
  else
    match outcome with
    | .ok _ => [Ev.notifyPost email]
    | .error _ => [Ev.notifyPost email]

/-- Failure dict built in the except block of _process_video_internal. -/
def internalFailed (video_id : String) (e : String) (meta : VideoMeta) :
    ProcResult :=
  { video_id := if video_id = "" then "unknown" else video_id
    status := .failed
    zip_filename := none
    zip_path := none
    frame_count := none
    error := some e
    metadata := some meta }

/-- Error message of the ValueError raised on an empty frame list. -/
def noFramesMsg : String := "Não foi possível extrair frames do vídeo"

/-- VideoProcessor._process_video_internal: create the per-run temp dir,
extract frames on the worker pool, fail on an empty frame list, create the
zip archive, clean the video file and temp dir, and return the completed
dict; the except block cleans only the video file (when it exists) and
returns the failure dict. No call to S3Service.upload_video appears. -/
def process_video_internal (env : Env) (output_dir : String)
    (video_path : String) (meta : VideoMeta) (fs0 : FsState) : RunOutput :=
  let video_id := videoIdOf video_path
  let temp_dir := output_dir ++ "/temp_" ++ video_id
  let fs1 : FsState := { fs0 with tempDir := true }
  let extractEv := Ev.extractFrames video_path temp_dir
  let cleanupOnError : List Ev :=
    if fs1.videoFile then [Ev.removePath video_path] else []
  match env.extractOutcome with
  | .error e =>
      { result := internalFailed video_id e meta
        fs := { fs1 with videoFile := false }
        trace := extractEv :: cleanupOnError }
  | .ok frame_paths =>
      if frame_paths.isEmpty then
        { result := internalFailed video_id noFramesMsg meta
          fs := { fs1 with videoFile := false }
          trace := extractEv :: cleanupOnError }
      else
        let title_safe := sanitizeTitle meta.title
        let zip_filename := video_id ++ "_" ++ title_safe ++ "_frames.zip"
        let zip_path := output_dir ++ "/" ++ zip_filename
        match env.zipOutcome with
        | .error e =>
            { result := internalFailed video_id e meta
              fs := { fs1 with videoFile := false }
              trace := extractEv :: Ev.createZip zip_path :: cleanupOnError }
        | .ok _ =>
            { result :=
                { video_id := video_id
                  status := .completed
                  zip_filename := some zip_filename
                  zip_path := some zip_path
                  zip_url := some ("/download/" ++ zip_filename)
                  frame_count := some frame_paths.length
                  error := none
                  metadata := some meta }
              fs := { videoFile := false, tempDir := false, zipFile := true }
              trace := [extractEv, Ev.createZip zip_path,
                        Ev.removePath video_path, Ev.removePath temp_dir] }

/-- Failure dict returned when video_exists is false. -/
def notFoundResult (s3_key : String) : ProcResult :=
  { video_id := "not_found"
    status := .failed
    error := some ("Vídeo não encontrado no S3: " ++ s3_key)
    s3_key := some s3_key }

/-- Full output of the not-found exit: only the head_object call happened
and nothing touched the filesystem. -/
def notFoundOutput (bucket s3_key : String) : RunOutput :=
  { result := notFoundResult s3_key
    fs := {}
    trace := [Ev.headObject bucket s3_key] }

/-- VideoProcessor.process_video_from_s3: existence check, download to a
uniquely named local path, then the internal stage; the outer except turns a
download exception into the failure dict with video_id error. The internal
stage never raises (it has its own catch-all), so the outer except only sees
fetch errors. -/
def process_video_from_s3 (env : Env) (bucket upload_dir output_dir : String)
    (s3_key title description : String) (_user_id source : String) :
    RunOutput :=
  let headEv := Ev.headObject bucket s3_key
  if video_exists env.headOutcome then
    let video_filename := env.uid ++ "_" ++ pathName s3_key
    let video_path := upload_dir ++ "/" ++ video_filename
    let dlEv := Ev.downloadFile bucket s3_key video_path
    match env.downloadOutcome with
    | .error e =>
        { result :=
            { video_id := "error"
              status := .failed
              error := some e
              s3_key := some s3_key }
          fs := {}
          trace := [headEv, dlEv] }
    | .ok _ =>
        let meta : VideoMeta :=
          { s3_key := s3_key
            title := title
            description := description
            bucket := bucket
            source := source
            original_filename := pathName s3_key }
        let inner := process_video_internal env output_dir video_path meta
          { videoFile := true }
        { inner with trace := headEv :: dlEv :: inner.trace }
  else
    notFoundOutput bucket s3_key

/-- A parsed queue message body (the JSON object); `none` is an absent key
and also models a JSON null value, both falsy in the Python checks. -/
structure Msg where
  s3Key : Option String := none
  s3Url : Option String := none
  title : Option String := none
  description : Option String := none
  uploadedAt : Option String := none
  email : Option String := none
deriving DecidableEq, Repr

/-- VideoProcessor.process_message: reject a missing or empty s3Key with no
external call at all; run the pipeline; on a Completed status return True;
otherwise, when the message carries a nonempty email, dispatch the failure
notification (on a pool thread, its outcome swallowed) and return False.
The surrounding catch-all means this function never raises. -/
def process_message (cfg : NotifyConfig) (env : Env)
    (bucket upload_dir output_dir : String) (m : Msg) : Bool × List Ev :=
  match m.s3Key with
  | none => (false, [])
  | some k =>
      if k = "" then (false, [])
      else
        let title := m.title.getD "Untitled"
        let description := m.description.getD ""
        let out := process_video_from_s3 env bucket upload_dir output_dir
          k title description "system" "sqs"
        if out.result.status = .completed then (true, out.trace)
        else
          let email := m.email.getD ""
          if email = "" then (false, out.trace)
          else
            (false, out.trace ++ send_error_email cfg env.notifyOutcome email)

/-- One received SQS message: the outcome that json.loads gives on its raw
Body, its receipt handle, and the environment its pipeline run would see. -/
structure SqsMessage where
  parseOutcome : Except String Msg
  receiptHandle : String
  env : Env
deriving DecidableEq, Repr

/-- Output of one consume_messages batch: the processed_messages list and
the ordered trace of external calls, delete_message calls included. -/
structure ConsumeOutput where
  processed : List (Msg × Bool)
  trace : List Ev
deriving DecidableEq, Repr

/-- SQSConsumer.consume_messages over one received batch: per message,
json.loads inside the per-message try (a parse failure is logged and the
loop moves on: no pipeline call, no delete, no processed entry); a parsed
body goes to process_message, and delete_message is called exactly when it
returned True. -/
def consume_messages (cfg : NotifyConfig)
    (bucket upload_dir output_dir : String) :
    List SqsMessage → ConsumeOutput
  | [] => { processed := [], trace := [] }
  | m :: rest =>
      let tail := consume_messages cfg bucket upload_dir output_dir rest
      match m.parseOutcome with
      | .error _ => tail
      | .ok body =>
          let r := process_message cfg m.env bucket upload_dir output_dir body
          let tr :=
            Ev.invokePipeline (body.s3Key.getD "unknown") ::
              (if r.1 then r.2 ++ [Ev.deleteMessage m.receiptHandle] else r.2)
          { processed := (body, r.1) :: tail.processed
            trace := tr ++ tail.trace }

/-- Truncation toward zero, the semantics of the Python int() conversion on
a nonnegative or negative rational. -/
def pyInt (q : ℚ) : ℤ :=
  if 0 ≤ q then ⌊q⌋ else ⌈q⌉

/-- Abstract view of a video file as OpenCV reports it: the value of
CAP_PROP_FPS and the number of frames that read() successfully yields
before returning failure. -/
structure VideoFile where
  fps : ℚ
  frameTotal : ℕ
deriving DecidableEq, Repr

/-- Frame file name frame_NNNNNN.jpg with the %06d padding. -/
def frameName (n : ℕ) : String :=
  let s := toString n
  "frame_" ++ String.mk (List.replicate (6 - s.length) '0') ++ s ++ ".jpg"

/-- The read loop of extract_frames_from_video: each successfully read frame
is saved when frame_count is a multiple of frame_interval; with a zero
interval the modulo raises ZeroDivisionError on the first read frame. -/
def extractLoop (frame_interval : ℤ) (output_dir : String) :
    ℕ → ℕ → List String → Except String (List String)
  | 0, _, saved => .ok saved.reverse
  | remaining + 1, frame_count, saved =>
      if frame_interval = 0 then
        .error "ZeroDivisionError: integer division or modulo by zero"
      else if (frame_count : ℤ) % frame_interval = 0 then
        extractLoop frame_interval output_dir remaining (frame_count + 1)
          ((output_dir ++ "/" ++ frameName frame_count) :: saved)
      else
        extractLoop frame_interval output_dir remaining (frame_count + 1)
          saved

/-- utils.extract_frames_from_video: frame_interval = int(fps divided by
frames_per_second), then the read loop; a zero frames_per_second already
raises in the float division. -/
def extract_frames_from_video (video : VideoFile) (output_dir : String)
    (frames_per_second : ℕ := 1) : Except String (List String) :=
  if frames_per_second = 0 then
    .error "ZeroDivisionError: float division by zero"
  else
    let frame_interval := pyInt (video.fps / (frames_per_second : ℚ))
    extractLoop frame_interval output_dir video.frameTotal 0 []

/-- Recognizer for an S3 upload call in a trace. -/
def isUploadEv : Ev → Bool
  | .uploadFile _ _ _ => true
  | _ => false

/-- Recognizer for a zip-creation call in a trace. -/
def isCreateZipEv : Ev → Bool
  | .createZip _ => true
  | _ => false

/-- Recognizer for a notification POST in a trace. -/
def isNotifyEv : Ev → Bool
  | .notifyPost _ => true
  | _ => false

/-- The receipt handles of the delete_message calls in a trace, in order. -/
def deletesOf (tr : List Ev) : List String :=
  tr.filterMap fun e =>
    match e with
    | .deleteMessage r => some r
    | _ => none

/-- Whether a received message parses and its pipeline run returns True
(pipeline Completed). -/
def msgCompleted (cfg : NotifyConfig) (bucket upload_dir output_dir : String)
    (m : SqsMessage) : Bool :=
  match m.parseOutcome with
  | .error _ => false
  | .ok body => (process_message cfg m.env bucket upload_dir output_dir body).1

/-- Environment of a fully successful run: every external call succeeds and
the extractor yields one frame. -/
def envAllOk : Env :=
  { uid := "runid"
    headOutcome := .ok ()
    downloadOutcome := .ok ()
    extractOutcome := .ok ["frame_000000.jpg"]
    zipOutcome := .ok ()
    notifyOutcome := .ok 200 }

/-- Environment where the extractor succeeds but yields zero frames. -/
def envZeroFrames : Env :=
  { uid := "runid"
    headOutcome := .ok ()
    downloadOutcome := .ok ()
    extractOutcome := .ok []
    zipOutcome := .ok ()
    notifyOutcome := .ok 200 }

/-- Environment where head_object raises a transient network error. -/
def envHeadTimeout : Env :=
  { uid := "runid"
    headOutcome := .error "ConnectTimeout"
    downloadOutcome := .ok ()
    extractOutcome := .ok ["frame_000000.jpg"]
    zipOutcome := .ok ()
    notifyOutcome := .ok 200 }

/-- Environment where download_file raises a permission error. -/
def envDownloadDenied : Env :=
  { uid := "runid"
    headOutcome := .ok ()
    downloadOutcome := .error "AccessDenied"
    extractOutcome := .ok ["frame_000000.jpg"]
    zipOutcome := .ok ()
    notifyOutcome := .ok 200 }

/-- Configuration with the notification URL set. -/
def cfgNotify : NotifyConfig :=
  { notification_service_url := some "http://notify.local" }

/-- Message body carrying a source key and a recipient email. -/
def msgDemoEmail : Msg :=
  { s3Key := some "videos/a.mp4", title := some "Demo"
    email := some "user@example.com" }

/-- Message body with no s3Key at all. -/
def msgNoKey : Msg :=
  { title := some "Demo" }

/-- Message body with a source key and nothing else. -/
def msgPlain : Msg :=
  { s3Key := some "videos/b.mp4" }

/-- A received message whose raw body is not valid JSON. -/
def badBodyMsg : SqsMessage :=
  { parseOutcome := .error "Expecting value: line 1 column 1 (char 0)"
    receiptHandle := "rh-bad"
    env := envAllOk }

/-- A received message whose run completes. -/
def goodMsg1 : SqsMessage :=
  { parseOutcome := .ok msgDemoEmail
    receiptHandle := "rh-1"
    env := envAllOk }

/-- A received message whose run fails on zero frames. -/
def goodMsg2 : SqsMessage :=
  { parseOutcome := .ok msgPlain
    receiptHandle := "rh-2"
    env := envZeroFrames }

end VideoProc

namespace VideoProc

/-- C8: a WorkItem whose sourceKey is absent or empty makes process_message
return the failed outcome False with an empty call trace: no existence
check, no fetch, no publish, no notification — no external call at all. -/
theorem missing_source_key_no_io (cfg : NotifyConfig) (env : Env)
    (bucket upload_dir output_dir : String) (m : Msg)
    (h : m.s3Key = none ∨ m.s3Key = some "") :
    process_message cfg env bucket upload_dir output_dir m = (false, []) := by
  rcases h with h | h <;> simp [process_message, h]

/-- Witness for C8: the concrete keyless message is rejected with no
external call. -/
theorem missing_source_key_no_io_witness :
    process_message cfgNotify envAllOk "bkt" "up" "out" msgNoKey =
      (false, []) :=
  missing_source_key_no_io cfgNotify envAllOk "bkt" "up" "out" msgNoKey
    (Or.inl rfl)

/-- C9: when head_object raises any exception, video_exists returns false
and the pipeline produces the not-found output — a record that does not
mention the exception, so a transient infrastructure error is
indistinguishable from a genuinely absent source, and no download is
attempted. -/
theorem head_exception_reports_not_found (env : Env)
    (bucket upload_dir output_dir key title description uid src e : String)
    (hh : env.headOutcome = .error e) :
    video_exists env.headOutcome = false ∧
    process_video_from_s3 env bucket upload_dir output_dir key title
      description uid src = notFoundOutput bucket key := by
  constructor
  · rw [hh]
    rfl
  · unfold process_video_from_s3
    rw [hh]
    rfl

/-- Witness for C9: a connection timeout during the existence check yields
exactly the not-found output. -/
theorem head_exception_reports_not_found_witness :
    video_exists envHeadTimeout.headOutcome = false ∧
    process_video_from_s3 envHeadTimeout "bkt" "up" "out" "videos/a.mp4"
      "Demo" "" "system" "sqs" = notFoundOutput "bkt" "videos/a.mp4" :=
  head_exception_reports_not_found envHeadTimeout "bkt" "up" "out"
    "videos/a.mp4" "Demo" "" "system" "sqs" "ConnectTimeout" rfl

/-- C10: when the reported fps is nonnegative and strictly below the
sampling rate, the computed frame interval truncates to zero, and reading
at least one frame makes the modulo raise ZeroDivisionError instead of
returning a frame list. -/
theorem low_fps_raises_zero_division (v : VideoFile) (d : String) (k : ℕ)
    (hk : 1 ≤ k) (h0 : 0 ≤ v.fps) (hlt : v.fps < (k : ℚ))
    (hn : 1 ≤ v.frameTotal) :
    extract_frames_from_video v d k =
      .error "ZeroDivisionError: integer division or modulo by zero" := by
  have hkq : (0 : ℚ) < (k : ℚ) := by exact_mod_cast hk
  have hk0 : ¬ (k = 0) := by omega
  have hdiv0 : 0 ≤ v.fps / (k : ℚ) := div_nonneg h0 hkq.le
  have hdiv1 : v.fps / (k : ℚ) < 1 := (div_lt_one hkq).mpr hlt
  have hfloor : ⌊v.fps / (k : ℚ)⌋ = 0 :=
    Int.floor_eq_zero_iff.mpr ⟨hdiv0, hdiv1⟩
  have hpy : pyInt (v.fps / (k : ℚ)) = 0 := by
    simp [pyInt, hdiv0, hfloor]
  obtain ⟨m, hm⟩ : ∃ m, v.frameTotal = m + 1 := by
    rcases Nat.exists_eq_succ_of_ne_zero (n := v.frameTotal) (by omega) with
      ⟨m, hm⟩
    exact ⟨m, hm⟩
  unfold extract_frames_from_video
  rw [if_neg hk0, hpy, hm]
  rfl

/-- Witness for C10: a half-frame-per-second video with one readable frame,
sampled at one frame per second, raises the division error. -/
theorem low_fps_raises_zero_division_witness :
    extract_frames_from_video ⟨1 / 2, 1⟩ "frames" 1 =
      .error "ZeroDivisionError: integer division or modulo by zero" :=
  low_fps_raises_zero_division ⟨1 / 2, 1⟩ "frames" 1 (by norm_num)
    (by norm_num) (by norm_num) (by norm_num)

/-- C5: the pipeline never raises to its caller. Every run ends in the
Completed or the Failed status, every Failed result carries an error
message, and the exception of each step (fetch, extract, package) is
captured verbatim into the error field of the Failed result. -/
theorem pipeline_never_raises_errors_captured (env : Env)
    (bucket upload_dir output_dir key title description uid src : String) :
    ((process_video_from_s3 env bucket upload_dir output_dir key title
        description uid src).result.status = .completed ∨
      (process_video_from_s3 env bucket upload_dir output_dir key title
        description uid src).result.status = .failed)
    ∧ ((process_video_from_s3 env bucket upload_dir output_dir key title
          description uid src).result.status = .failed →
        ∃ msg, (process_video_from_s3 env bucket upload_dir output_dir key
          title description uid src).result.error = some msg)
    ∧ (∀ e, env.headOutcome = .ok () → env.downloadOutcome = .error e →
        (process_video_from_s3 env bucket upload_dir output_dir key title
          description uid src).result.status = .failed ∧
        (process_video_from_s3 env bucket upload_dir output_dir key title
          description uid src).result.error = some e)
    ∧ (∀ e, env.headOutcome = .ok () → env.downloadOutcome = .ok () →
        env.extractOutcome = .error e →
        (process_video_from_s3 env bucket upload_dir output_dir key title
          description uid src).result.status = .failed ∧
        (process_video_from_s3 env bucket upload_dir output_dir key title
          description uid src).result.error = some e)
    ∧ (∀ e, env.headOutcome = .ok () → env.downloadOutcome = .ok () →
        (∃ l, env.extractOutcome = .ok l ∧ l ≠ []) →
        env.zipOutcome = .error e →
        (process_video_from_s3 env bucket upload_dir output_dir key title
          description uid src).result.status = .failed ∧
        (process_video_from_s3 env bucket upload_dir output_dir key title
          description uid src).result.error = some e) := by
  refine ⟨?_, ?_, ?_, ?_, ?_⟩
  · rcases env with ⟨u, h, d, x, z, n⟩
    cases h with
    | error e =>
        simp [process_video_from_s3, video_exists, notFoundOutput,
          notFoundResult]
    | ok _ =>
        cases d with
        | error e => simp [process_video_from_s3, video_exists]
        | ok _ =>
            cases x with
            | error e =>
                simp [process_video_from_s3, process_video_internal,
                  internalFailed, video_exists]
            | ok l =>
                cases l with
                | nil =>
                    simp [process_video_from_s3, process_video_internal,
                      internalFailed, video_exists]
                | cons a t =>
                    cases z with
                    | error e =>
                        simp [process_video_from_s3, process_video_internal,
                          internalFailed, video_exists]
                    | ok _ =>
                        simp [process_video_from_s3, process_video_internal,
                          video_exists]
  · rcases env with ⟨u, h, d, x, z, n⟩
    cases h with
    | error e =>
        simp [process_video_from_s3, video_exists, notFoundOutput,
          notFoundResult]
    | ok _ =>
        cases d with
        | error e => simp [process_video_from_s3, video_exists]
        | ok _ =>
            cases x with
            | error e =>
                simp [process_video_from_s3, process_video_internal,
                  internalFailed, video_exists]
            | ok l =>
                cases l with
                | nil =>
                    simp [process_video_from_s3, process_video_internal,
                      internalFailed, video_exists]
                | cons a t =>
                    cases z with
                    | error e =>
                        simp [process_video_from_s3, process_video_internal,
                          internalFailed, video_exists]
                    | ok _ =>
                        simp [process_video_from_s3, process_video_internal,
                          video_exists]
  · intro e h1 h2
    unfold process_video_from_s3
    rw [h1, h2]
    exact ⟨rfl, rfl⟩
  · intro e h1 h2 h3
    unfold process_video_from_s3 process_video_internal
    rw [h1, h2, h3]
    exact ⟨rfl, rfl⟩
  · intro e h1 h2 hex hz
    obtain ⟨l, hx, hl⟩ := hex
    cases l with
    | nil => exact absurd rfl hl
    | cons a t =>
        unfold process_video_from_s3 process_video_internal
        rw [h1, h2, hx, hz]
        exact ⟨rfl, rfl⟩

/-- Witness for C5: a denied download is converted into a Failed result
carrying the raised message. -/
theorem pipeline_never_raises_witness :
    (process_video_from_s3 envDownloadDenied "bkt" "up" "out" "videos/a.mp4"
      "Demo" "" "system" "sqs").result.status = .failed ∧
    (process_video_from_s3 envDownloadDenied "bkt" "up" "out" "videos/a.mp4"
      "Demo" "" "system" "sqs").result.error = some "AccessDenied" :=
  (pipeline_never_raises_errors_captured envDownloadDenied "bkt" "up" "out"
    "videos/a.mp4" "Demo" "" "system" "sqs").2.2.1 "AccessDenied" rfl rfl

/-- C7: a Completed result always carries a positive frame count; an
extraction that yields zero frames always produces a Failed result, with
the no-frames message whenever that stage was actually reached. -/
theorem completed_has_positive_frame_count (env : Env)
    (bucket upload_dir output_dir key title description uid src : String) :
    ((process_video_from_s3 env bucket upload_dir output_dir key title
        description uid src).result.status = .completed →
      ∃ n, (process_video_from_s3 env bucket upload_dir output_dir key title
        description uid src).result.frame_count = some n ∧ 0 < n)
    ∧ (env.extractOutcome = .ok [] →
        (process_video_from_s3 env bucket upload_dir output_dir key title
          description uid src).result.status = .failed)
    ∧ (env.extractOutcome = .ok [] → env.headOutcome = .ok () →
        env.downloadOutcome = .ok () →
        (process_video_from_s3 env bucket upload_dir output_dir key title
          description uid src).result.error = some noFramesMsg) := by
  refine ⟨?_, ?_, ?_⟩
  · rcases env with ⟨u, h, d, x, z, n⟩
    cases h with
    | error e =>
        simp [process_video_from_s3, video_exists, notFoundOutput,
          notFoundResult]
    | ok _ =>
        cases d with
        | error e => simp [process_video_from_s3, video_exists]
        | ok _ =>
            cases x with
            | error e =>
                simp [process_video_from_s3, process_video_internal,
                  internalFailed, video_exists]
            | ok l =>
                cases l with
                | nil =>
                    simp [process_video_from_s3, process_video_internal,
                      internalFailed, video_exists]
                | cons a t =>
                    cases z with
                    | error e =>
                        simp [process_video_from_s3, process_video_internal,
                          internalFailed, video_exists]
                    | ok _ =>
                        intro _
                        exact ⟨(a :: t).length, rfl, Nat.succ_pos _⟩
  · rcases env with ⟨u, h, d, x, z, n⟩
    intro hx
    obtain rfl : x = Except.ok [] := hx
    cases h with
    | error e =>
        simp [process_video_from_s3, video_exists, notFoundOutput,
          notFoundResult]
    | ok _ =>
        cases d with
        | error e => simp [process_video_from_s3, video_exists]
        | ok _ =>
            simp [process_video_from_s3, process_video_internal,
              internalFailed, video_exists]
  · rcases env with ⟨u, h, d, x, z, n⟩
    intro hx h1 h2
    obtain rfl : x = Except.ok [] := hx
    obtain rfl : h = Except.ok () := h1
    obtain rfl : d = Except.ok () := h2
    rfl

/-- Witness for C7: the zero-frame run fails with the no-frames message. -/
theorem completed_has_positive_frame_count_witness :
    (process_video_from_s3 envZeroFrames "bkt" "up" "out" "videos/a.mp4"
      "Demo" "" "system" "sqs").result.status = .failed ∧
    (process_video_from_s3 envZeroFrames "bkt" "up" "out" "videos/a.mp4"
      "Demo" "" "system" "sqs").result.error = some noFramesMsg :=
  ⟨(completed_has_positive_frame_count envZeroFrames "bkt" "up" "out"
      "videos/a.mp4" "Demo" "" "system" "sqs").2.1 rfl,
   (completed_has_positive_frame_count envZeroFrames "bkt" "up" "out"
      "videos/a.mp4" "Demo" "" "system" "sqs").2.2 rfl rfl rfl⟩

/-- Counterexample to C1: a run in which every external call succeeds
reaches the Completed status, yet its trace contains no upload call at all
— the compressed archive is never published to the artifact store. -/
theorem completed_run_publishes_no_archive :
    (process_video_from_s3 envAllOk "bkt" "up" "out" "videos/a.mp4" "Demo"
      "" "system" "sqs").result.status = .completed ∧
    (process_video_from_s3 envAllOk "bkt" "up" "out" "videos/a.mp4" "Demo"
      "" "system" "sqs").trace.countP isUploadEv = 0 := by
  constructor <;> rfl

/-- C1 amended: no run ever issues an upload call; a Completed run instead
leaves the archive in the local output directory, exposed through a local
download URL, and the archive is only ever packaged after the extractor
returned a nonempty frame list. -/
theorem archive_stays_local_and_follows_extraction (env : Env)
    (bucket upload_dir output_dir key title description uid src : String) :
    ((process_video_from_s3 env bucket upload_dir output_dir key title
        description uid src).trace.countP isUploadEv = 0)
    ∧ ((process_video_from_s3 env bucket upload_dir output_dir key title
          description uid src).result.status = .completed →
        ∃ z, (process_video_from_s3 env bucket upload_dir output_dir key
            title description uid src).result.zip_filename = some z ∧
          (process_video_from_s3 env bucket upload_dir output_dir key title
            description uid src).result.zip_url =
              some ("/download/" ++ z) ∧
          (process_video_from_s3 env bucket upload_dir output_dir key title
            description uid src).fs.zipFile = true)
    ∧ ((process_video_from_s3 env bucket upload_dir output_dir key title
          description uid src).trace.countP isCreateZipEv ≠ 0 →
        ∃ l, env.extractOutcome = .ok l ∧ l ≠ []) := by
  refine ⟨?_, ?_, ?_⟩
  · rcases env with ⟨u, h, d, x, z, n⟩
    cases h with
    | error e =>
        simp [process_video_from_s3, video_exists, notFoundOutput,
          isUploadEv]
    | ok _ =>
        cases d with
        | error e => simp [process_video_from_s3, video_exists, isUploadEv]
        | ok _ =>
            cases x with
            | error e =>
                simp [process_video_from_s3, process_video_internal,
                  video_exists, isUploadEv]
            | ok l =>
                cases l with
                | nil =>
                    simp [process_video_from_s3, process_video_internal,
                      video_exists, isUploadEv]
                | cons a t =>
                    cases z with
                    | error e =>
                        simp [process_video_from_s3, process_video_internal,
                          video_exists, isUploadEv]
                    | ok _ =>
                        simp [process_video_from_s3, process_video_internal,
                          video_exists, isUploadEv]
  · rcases env with ⟨u, h, d, x, z, n⟩
    cases h with
    | error e =>
        simp [process_video_from_s3, video_exists, notFoundOutput,
          notFoundResult]
    | ok _ =>
        cases d with
        | error e => simp [process_video_from_s3, video_exists]
        | ok _ =>
            cases x with
            | error e =>
                simp [process_video_from_s3, process_video_internal,
                  internalFailed, video_exists]
            | ok l =>
                cases l with
                | nil =>
                    simp [process_video_from_s3, process_video_internal,
                      internalFailed, video_exists]
                | cons a t =>
                    cases z with
                    | error e =>
                        simp [process_video_from_s3, process_video_internal,
                          internalFailed, video_exists]
                    | ok _ =>
                        intro _
                        exact ⟨_, rfl, rfl, rfl⟩
  · rcases env with ⟨u, h, d, x, z, n⟩
    cases h with
    | error e =>
        simp [process_video_from_s3, video_exists, notFoundOutput,
          isCreateZipEv]
    | ok _ =>
        cases d with
        | error e =>
            simp [process_video_from_s3, video_exists, isCreateZipEv]
        | ok _ =>
            cases x with
            | error e =>
                simp [process_video_from_s3, process_video_internal,
                  video_exists, isCreateZipEv]
            | ok l =>
                cases l with
                | nil =>
                    simp [process_video_from_s3, process_video_internal,
                      video_exists, isCreateZipEv]
                | cons a t =>
                    cases z with
                    | error e =>
                        intro _
                        exact ⟨a :: t, rfl, by simp⟩
                    | ok _ =>
                        intro _
                        exact ⟨a :: t, rfl, by simp⟩

/-- Witness for C1 amended: the concrete successful run issues no upload
call. -/
theorem archive_stays_local_witness :
    (process_video_from_s3 envAllOk "bkt" "up" "out" "videos/b.mp4" "Demo"
      "" "system" "sqs").trace.countP isUploadEv = 0 :=
  (archive_stays_local_and_follows_extraction envAllOk "bkt" "up" "out"
    "videos/b.mp4" "Demo" "" "system" "sqs").1

/-- Counterexample to C2: a run that fails on zero extracted frames has
already created the per-run temp frame directory, and after the run
returns that directory is still present — the failure path removes only
the downloaded video file. -/
theorem zero_frames_failure_leaves_temp_dir :
    (process_video_from_s3 envZeroFrames "bkt" "up" "out" "videos/a.mp4"
      "Demo" "" "system" "sqs").result.status = .failed ∧
    (process_video_from_s3 envZeroFrames "bkt" "up" "out" "videos/a.mp4"
      "Demo" "" "system" "sqs").fs.tempDir = true := by
  constructor <;> rfl

/-- C2 amended: after a Completed run both the downloaded video file and
the temp frame directory are absent; after a successful download the video
file is absent on every exit path, but a Failed exit of the internal stage
leaves the temp frame directory behind. -/
theorem cleanup_removes_video_but_temp_dir_only_on_success (env : Env)
    (bucket upload_dir output_dir key title description uid src : String) :
    ((process_video_from_s3 env bucket upload_dir output_dir key title
        description uid src).result.status = .completed →
      (process_video_from_s3 env bucket upload_dir output_dir key title
        description uid src).fs.videoFile = false ∧
      (process_video_from_s3 env bucket upload_dir output_dir key title
        description uid src).fs.tempDir = false)
    ∧ (env.headOutcome = .ok () → env.downloadOutcome = .ok () →
        (process_video_from_s3 env bucket upload_dir output_dir key title
          description uid src).fs.videoFile = false ∧
        ((process_video_from_s3 env bucket upload_dir output_dir key title
            description uid src).result.status = .failed →
          (process_video_from_s3 env bucket upload_dir output_dir key title
            description uid src).fs.tempDir = true)) := by
  refine ⟨?_, ?_⟩
  · rcases env with ⟨u, h, d, x, z, n⟩
    cases h with
    | error e =>
        simp [process_video_from_s3, video_exists, notFoundOutput,
          notFoundResult]
    | ok _ =>
        cases d with
        | error e => simp [process_video_from_s3, video_exists]
        | ok _ =>
            cases x with
            | error e =>
                simp [process_video_from_s3, process_video_internal,
                  internalFailed, video_exists]
            | ok l =>
                cases l with
                | nil =>
                    simp [process_video_from_s3, process_video_internal,
                      internalFailed, video_exists]
                | cons a t =>
                    cases z with
                    | error e =>
                        simp [process_video_from_s3, process_video_internal,
                          internalFailed, video_exists]
                    | ok _ =>
                        exact fun _ => ⟨rfl, rfl⟩
  · rcases env with ⟨u, h, d, x, z, n⟩
    intro h1 h2
    obtain rfl : h = Except.ok () := h1
    obtain rfl : d = Except.ok () := h2
    cases x with
    | error e =>
        exact ⟨rfl, fun _ => rfl⟩
    | ok l =>
        cases l with
        | nil => exact ⟨rfl, fun _ => rfl⟩
        | cons a t =>
            cases z with
            | error e => exact ⟨rfl, fun _ => rfl⟩
            | ok _ =>
                refine ⟨rfl, ?_⟩
                simp [process_video_from_s3, process_video_internal,
                  video_exists]

/-- Witness for C2 amended: the concrete zero-frames run still removed the
downloaded video file. -/
theorem cleanup_amended_witness :
    (process_video_from_s3 envZeroFrames "bkt" "up" "out" "videos/a.mp4"
      "Demo" "" "system" "sqs").fs.videoFile = false ∧
    ((process_video_from_s3 envZeroFrames "bkt" "up" "out" "videos/a.mp4"
        "Demo" "" "system" "sqs").result.status = .failed →
      (process_video_from_s3 envZeroFrames "bkt" "up" "out" "videos/a.mp4"
        "Demo" "" "system" "sqs").fs.tempDir = true) :=
  (cleanup_removes_video_but_temp_dir_only_on_success envZeroFrames "bkt"
    "up" "out" "videos/a.mp4" "Demo" "" "system" "sqs").2 rfl rfl

/-- Helper: the pipeline itself never issues a notification POST; the only
notification call sites are in process_message, after the run returned. -/
theorem pipeline_trace_no_notify (env : Env)
    (bucket upload_dir output_dir key title description uid src : String) :
    (process_video_from_s3 env bucket upload_dir output_dir key title
      description uid src).trace.countP isNotifyEv = 0 := by
  rcases env with ⟨u, h, d, x, z, n⟩
  cases h with
  | error e =>
      simp [process_video_from_s3, video_exists, notFoundOutput, isNotifyEv]
  | ok _ =>
      cases d with
      | error e => simp [process_video_from_s3, video_exists, isNotifyEv]
      | ok _ =>
          cases x with
          | error e =>
              simp [process_video_from_s3, process_video_internal,
                video_exists, isNotifyEv]
          | ok l =>
              cases l with
              | nil =>
                  simp [process_video_from_s3, process_video_internal,
                    video_exists, isNotifyEv]
              | cons a t =>
                  cases z with
                  | error e =>
                      simp [process_video_from_s3, process_video_internal,
                        video_exists, isNotifyEv]
                  | ok _ =>
                      simp [process_video_from_s3, process_video_internal,
                        video_exists, isNotifyEv]

/-- Counterexample to C4: a run whose WorkItem carries a recipient email
and whose pipeline reaches Completed dispatches no notification at all —
the code only notifies on the failure path. -/
theorem completed_run_sends_no_notification :
    (process_message cfgNotify envAllOk "bkt" "up" "out" msgDemoEmail).1 =
      true ∧
    (process_message cfgNotify envAllOk "bkt" "up" "out"
      msgDemoEmail).2.countP isNotifyEv = 0 := by
  constructor <;> rfl

/-- C4 amended: for a message with a nonempty s3Key and a nonempty
recipient email, with the notification URL configured, exactly one failure
notification is dispatched when the pipeline result is not Completed and
none when it is Completed; the dispatch runs on a worker thread whose HTTP
outcome is swallowed, so the notifier outcome never changes the returned
result. -/
theorem notification_only_on_failure (cfg : NotifyConfig) (env : Env)
    (bucket upload_dir output_dir : String) (m : Msg) (k em nurl : String)
    (hk : m.s3Key = some k) (hk0 : ¬ (k = ""))
    (hem : m.email = some em) (hem0 : ¬ (em = ""))
    (hu : cfg.notification_service_url = some nurl) :
    ((process_video_from_s3 env bucket upload_dir output_dir k
        (m.title.getD "Untitled") (m.description.getD "") "system"
        "sqs").result.status = .completed →
      (process_message cfg env bucket upload_dir output_dir m).1 = true ∧
      (process_message cfg env bucket upload_dir output_dir m).2.countP
        isNotifyEv = 0)
    ∧ ((process_video_from_s3 env bucket upload_dir output_dir k
          (m.title.getD "Untitled") (m.description.getD "") "system"
          "sqs").result.status ≠ .completed →
      (process_message cfg env bucket upload_dir output_dir m).1 = false ∧
      (process_message cfg env bucket upload_dir output_dir m).2.countP
        isNotifyEv = 1)
    ∧ (∀ o1 o2 : Except String Nat,
        process_message cfg { env with notifyOutcome := o1 } bucket
          upload_dir output_dir m =
        process_message cfg { env with notifyOutcome := o2 } bucket
          upload_dir output_dir m) := by
  refine ⟨?_, ?_, ?_⟩
  · intro hst
    have hpm : process_message cfg env bucket upload_dir output_dir m =
        (true, (process_video_from_s3 env bucket upload_dir output_dir k
          (m.title.getD "Untitled") (m.description.getD "") "system"
          "sqs").trace) := by
      simp only [process_message, hk]
      rw [if_neg hk0, if_pos hst]
    rw [hpm]
    exact ⟨rfl, pipeline_trace_no_notify env bucket upload_dir output_dir k
      (m.title.getD "Untitled") (m.description.getD "") "system" "sqs"⟩
  · intro hst
    have hpm : process_message cfg env bucket upload_dir output_dir m =
        (false, (process_video_from_s3 env bucket upload_dir output_dir k
          (m.title.getD "Untitled") (m.description.getD "") "system"
          "sqs").trace ++ send_error_email cfg env.notifyOutcome em) := by
      simp only [process_message, hk]
      rw [if_neg hk0, if_neg hst, hem]
      simp only [Option.getD_some]
      rw [if_neg hem0]
    rw [hpm]
    refine ⟨rfl, ?_⟩
    rw [List.countP_append]
    rw [pipeline_trace_no_notify env bucket upload_dir output_dir k
      (m.title.getD "Untitled") (m.description.getD "") "system" "sqs"]
    cases env.notifyOutcome <;>
      simp [send_error_email, hu, hem0, isNotifyEv]
  · intro o1 o2
    rcases env with ⟨u, h, d, x, z, n⟩
    cases o1 <;> cases o2 <;> rfl

/-- Witness for C4 amended: the concrete run with a denied download sends
exactly one failure notification and returns the failed outcome. -/
theorem notification_only_on_failure_witness :
    (process_message cfgNotify envDownloadDenied "bkt" "up" "out"
      msgDemoEmail).1 = false ∧
    (process_message cfgNotify envDownloadDenied "bkt" "up" "out"
      msgDemoEmail).2.countP isNotifyEv = 1 :=
  (notification_only_on_failure cfgNotify envDownloadDenied "bkt" "up"
    "out" msgDemoEmail "videos/a.mp4" "user@example.com" "http://notify.local"
    rfl (by decide) rfl (by decide) rfl).2.1 (by decide)

/-- Helper: deletesOf distributes over concatenation of traces. -/
theorem deletesOf_append (a b : List Ev) :
    deletesOf (a ++ b) = deletesOf a ++ deletesOf b :=
  List.filterMap_append a b _

/-- Helper: a pipeline-invocation marker carries no delete call. -/
theorem deletesOf_cons_invoke (s : String) (l : List Ev) :
    deletesOf (Ev.invokePipeline s :: l) = deletesOf l := rfl

/-- Helper: a delete event contributes its receipt handle. -/
theorem deletesOf_cons_delete (r : String) (l : List Ev) :
    deletesOf (Ev.deleteMessage r :: l) = r :: deletesOf l := rfl

/-- Helper: the empty trace holds no delete call. -/
theorem deletesOf_nil : deletesOf [] = [] := rfl

/-- Helper: the pipeline itself never issues a queue delete call. -/
theorem deletesOf_pipeline (env : Env)
    (bucket upload_dir output_dir key title description uid src : String) :
    deletesOf (process_video_from_s3 env bucket upload_dir output_dir key
      title description uid src).trace = [] := by
  rcases env with ⟨u, h, d, x, z, n⟩
  cases h with
  | error e =>
      simp [process_video_from_s3, video_exists, notFoundOutput, deletesOf]
  | ok _ =>
      cases d with
      | error e => simp [process_video_from_s3, video_exists, deletesOf]
      | ok _ =>
          cases x with
          | error e =>
              simp [process_video_from_s3, process_video_internal,
                video_exists, deletesOf]
          | ok l =>
              cases l with
              | nil =>
                  simp [process_video_from_s3, process_video_internal,
                    video_exists, deletesOf]
              | cons a t =>
                  cases z with
                  | error e =>
                      simp [process_video_from_s3, process_video_internal,
                        video_exists, deletesOf]
                  | ok _ =>
                      simp [process_video_from_s3, process_video_internal,
                        video_exists, deletesOf]

/-- Helper: the notification dispatch never issues a queue delete call. -/
theorem deletesOf_send_error_email (cfg : NotifyConfig)
    (o : Except String Nat) (email : String) :
    deletesOf (send_error_email cfg o email) = [] := by
  unfold send_error_email
  cases o <;> split <;> simp [deletesOf]

/-- Helper: process_message never issues a queue delete call; deletion is
decided only by the consumer loop. -/
theorem deletesOf_process_message (cfg : NotifyConfig) (env : Env)
    (bucket upload_dir output_dir : String) (m : Msg) :
    deletesOf (process_message cfg env bucket upload_dir output_dir m).2 =
      [] := by
  cases hms : m.s3Key with
  | none => simp [process_message, hms, deletesOf]
  | some k =>
      by_cases hk0 : k = ""
      · simp [process_message, hms, hk0, deletesOf]
      · by_cases hst : (process_video_from_s3 env bucket upload_dir
            output_dir k (m.title.getD "Untitled") (m.description.getD "")
            "system" "sqs").result.status = .completed
        · have hpm : (process_message cfg env bucket upload_dir output_dir
              m).2 = (process_video_from_s3 env bucket upload_dir output_dir
                k (m.title.getD "Untitled") (m.description.getD "") "system"
                "sqs").trace := by
            simp only [process_message, hms]
            rw [if_neg hk0, if_pos hst]
          rw [hpm]
          exact deletesOf_pipeline env bucket upload_dir output_dir k
            (m.title.getD "Untitled") (m.description.getD "") "system" "sqs"
        · by_cases hem : m.email.getD "" = ""
          · have hpm : (process_message cfg env bucket upload_dir output_dir
                m).2 = (process_video_from_s3 env bucket upload_dir
                  output_dir k (m.title.getD "Untitled")
                  (m.description.getD "") "system" "sqs").trace := by
              simp only [process_message, hms]
              rw [if_neg hk0, if_neg hst, if_pos hem]
            rw [hpm]
            exact deletesOf_pipeline env bucket upload_dir output_dir k
              (m.title.getD "Untitled") (m.description.getD "") "system"
              "sqs"
          · have hpm : (process_message cfg env bucket upload_dir output_dir
                m).2 = (process_video_from_s3 env bucket upload_dir
                  output_dir k (m.title.getD "Untitled")
                  (m.description.getD "") "system" "sqs").trace ++
                send_error_email cfg env.notifyOutcome (m.email.getD "") := by
              simp only [process_message, hms]
              rw [if_neg hk0, if_neg hst, if_neg hem]
            rw [hpm, deletesOf_append]
            rw [deletesOf_pipeline env bucket upload_dir output_dir k
              (m.title.getD "Untitled") (m.description.getD "") "system"
              "sqs"]
            rw [deletesOf_send_error_email]
            rfl

/-- C3: over any received batch, the receipt handles of the delete calls
are exactly, in order, those of the messages whose body parsed and whose
pipeline run returned the successful outcome; and that outcome is True
precisely when the run reached the Completed status on a nonempty source
key. So a message is deleted if and only if its pipeline run Completed. -/
theorem delete_iff_completed (cfg : NotifyConfig)
    (bucket upload_dir output_dir : String) :
    (∀ batch : List SqsMessage,
      deletesOf (consume_messages cfg bucket upload_dir output_dir
          batch).trace =
        (batch.filter (msgCompleted cfg bucket upload_dir output_dir)).map
          SqsMessage.receiptHandle)
    ∧ (∀ (env : Env) (body : Msg),
        (process_message cfg env bucket upload_dir output_dir body).1 =
            true ↔
          ∃ k, body.s3Key = some k ∧ ¬ (k = "") ∧
            (process_video_from_s3 env bucket upload_dir output_dir k
              (body.title.getD "Untitled") (body.description.getD "")
              "system" "sqs").result.status = .completed) := by
  constructor
  · intro batch
    induction batch with
    | nil => rfl
    | cons m rest ih =>
        cases hp : m.parseOutcome with
        | error e =>
            simp [consume_messages, hp, msgCompleted, ih]
        | ok body =>
            by_cases hr : (process_message cfg m.env bucket upload_dir
                output_dir body).1 = true
            · simp [consume_messages, hp, msgCompleted, hr, ih,
                deletesOf_append, deletesOf_process_message,
                deletesOf_cons_invoke, deletesOf_cons_delete, deletesOf_nil,
                List.filter_cons]
            · simp [consume_messages, hp, msgCompleted, hr, ih,
                deletesOf_append, deletesOf_process_message,
                deletesOf_cons_invoke, deletesOf_cons_delete, deletesOf_nil,
                List.filter_cons]
  · intro env body
    constructor
    · intro htrue
      cases hk : body.s3Key with
      | none => simp [process_message, hk] at htrue
      | some k =>
          by_cases hk0 : k = ""
          · simp [process_message, hk, hk0] at htrue
          · by_cases hst : (process_video_from_s3 env bucket upload_dir
                output_dir k (body.title.getD "Untitled")
                (body.description.getD "") "system" "sqs").result.status =
                .completed
            · exact ⟨k, rfl, hk0, hst⟩
            · exfalso
              have hfalse : (process_message cfg env bucket upload_dir
                  output_dir body).1 = false := by
                simp only [process_message, hk]
                rw [if_neg hk0, if_neg hst]
                by_cases hem : body.email.getD "" = ""
                · rw [if_pos hem]
                · rw [if_neg hem]
              rw [htrue] at hfalse
              exact absurd hfalse (by decide)
    · rintro ⟨k, hk, hk0, hst⟩
      simp only [process_message, hk]
      rw [if_neg hk0, if_pos hst]

/-- Witness for C3: on the concrete three-message batch — one malformed
body, one Completed run, one zero-frames failure — exactly the receipt
handle of the Completed run is deleted. -/
theorem delete_iff_completed_witness :
    deletesOf (consume_messages cfgNotify "bkt" "up" "out"
        [badBodyMsg, goodMsg1, goodMsg2]).trace =
      ([badBodyMsg, goodMsg1, goodMsg2].filter
        (msgCompleted cfgNotify "bkt" "up" "out")).map
          SqsMessage.receiptHandle :=
  (delete_iff_completed cfgNotify "bkt" "up" "out").1
    [badBodyMsg, goodMsg1, goodMsg2]

/-- C6: a received message whose body fails to parse contributes nothing:
consuming a batch with it is identical — same processed list, same trace,
hence zero pipeline invocations and zero delete calls for it — to
consuming the batch without it, so the remaining messages of the batch are
still processed. -/
theorem malformed_body_is_skipped (cfg : NotifyConfig)
    (bucket upload_dir output_dir : String) (pre post : List SqsMessage)
    (bad : SqsMessage) (e : String) (h : bad.parseOutcome = .error e) :
    consume_messages cfg bucket upload_dir output_dir (pre ++ bad :: post) =
      consume_messages cfg bucket upload_dir output_dir (pre ++ post) := by
  induction pre with
  | nil => simp [consume_messages, h]
  | cons m rest ih =>
      simp only [List.cons_append, consume_messages, List.append_eq]
      simp only [ih]

/-- Witness for C6: dropping the concrete malformed message from a batch
leaves the consumption outcome unchanged; the well-formed messages around
it are still processed. -/
theorem malformed_body_is_skipped_witness :
    consume_messages cfgNotify "bkt" "up" "out"
        [goodMsg1, badBodyMsg, goodMsg2] =
      consume_messages cfgNotify "bkt" "up" "out" [goodMsg1, goodMsg2] :=
  malformed_body_is_skipped cfgNotify "bkt" "up" "out" [goodMsg1] [goodMsg2]
    badBodyMsg "Expecting value: line 1 column 1 (char 0)" rfl

end VideoProc
